import Mathlib

/-!
Verification of the `iq2us_rss` scraper (`src/iq2us_rss/iq2us_rss.py`) against its
natural-language specification.

The embedding models the module shallowly:

* timestamps (timezone-aware `datetime` values) are modelled as `Int` epoch seconds;
  comparison of aware datetimes is comparison of the instants they denote, so `<` on
  `Int` is faithful.  Epoch UTC (`datetime.datetime(1970, 1, 1, tzinfo=UTC)`) is `0`.
* parsed HTML/XML documents (the output of `bs4.BeautifulSoup`) are modelled by the
  `Node` tree below; BeautifulSoup's searching primitives (`find_all`, `find`,
  attribute access, `.string`, `.stripped_strings`, tag truthiness) are given
  executable definitions matching bs4's documented behaviour.
* external collaborators that the spec itself declares out of scope (HTTP transport,
  `iso8601.parse_date`, `urlparse`, `strftime`, the content-length resolver) are
  passed in as function parameters; fallible fetches are `Except` values.
* Python exceptions are modelled with `Except`: `requests` transport errors and the
  uncaught structural errors (`KeyError`/`TypeError`/`AttributeError`) that page
  scraping can raise are distinguished by `RunError` where the difference matters.
* Python strings are `String`/`List Char`; Python string comparison (used by
  `max(..., key=...)` on the textual `duration` field) is `pyStrLt`, lexicographic
  on code points, and Python's `s[:n]` slicing is `List.take` on `.data`.
-/

/-- Model of `Debate = collections.namedtuple("Debate", ["url", "last_modified"])`. -/
structure Debate where
  url : String
  last_modified : Int
deriving DecidableEq

/-- Model of `Podcast = collections.namedtuple("Podcast", ["title", "desc", "pubDate", "url", "type", "duration"])`.
The `duration` field is a `String`: `find_podcasts` stores `unicode(src['data-duration'])`,
the raw attribute text, never an integer. -/
structure Podcast where
  title : String
  desc : String
  pubDate : Option Int
  url : String
  type : String
  duration : String
deriving DecidableEq

/-- Model of a parsed markup tree as built by `bs4.BeautifulSoup`: either a
`NavigableString` or a `Tag` with a name, an optional `id` attribute, a multi-valued
`class` attribute, the remaining attributes, and children in document order. -/
inductive Node where
  | text : String → Node
  | elem : String → Option String → List String → List (String × String) → List Node → Node

mutual

/-- Descendants of a node in document (pre-) order, the order in which bs4's
`find_all` and `find` traverse them (the node itself excluded, as in bs4). -/
def descendants : Node → List Node
  | .text _ => []
  | .elem _ _ _ _ ch => descList ch

/-- Pre-order listing of a forest: each root followed by its descendants. -/
def descList : List Node → List Node
  | [] => []
  | n :: ns => n :: (descendants n ++ descList ns)

end

/-- Does the node have the given tag name (`find_all("audio")`-style match)? -/
def tagIs (t : String) : Node → Bool
  | .text _ => false
  | .elem tag _ _ _ _ => tag == t

/-- Does the node have the given `id` attribute (`find_all(id=...)`-style match)? -/
def idIs (i : String) : Node → Bool
  | .text _ => false
  | .elem _ nid _ _ _ => nid == some i

/-- Does the node carry the given CSS class (`find_all(class_=...)`-style match)? -/
def classHas (c : String) : Node → Bool
  | .text _ => false
  | .elem _ _ classes _ _ => classes.contains c

/-- Attribute lookup, `tag['key']` / `tag.get('key')` without the raising behaviour:
`some` value when present. -/
def attrOf (n : Node) (k : String) : Option String :=
  match n with
  | .text _ => none
  | .elem _ _ _ attrs _ => (attrs.find? (fun kv => kv.1 == k)).map (fun kv => kv.2)

/-- Model of `soup.find_all(...)`: all matching descendants in document order. -/
def findAll (p : Node → Bool) (n : Node) : List Node :=
  (descendants n).filter p

/-- Model of `soup.find(...)` / attribute-style access such as `tag.source`:
the first matching descendant, or `None`. -/
def findFirst (p : Node → Bool) (n : Node) : Option Node :=
  (descendants n).find? p

/-- Model of `tag.foo` (bs4 tag-name attribute access): first descendant named `t`. -/
def findFirstTag (t : String) (n : Node) : Option Node :=
  findFirst (tagIs t) n

/-- Model of bs4 `tag.string`: a tag with a single string child returns it, a tag
with a single tag child returns that child's `.string`, anything else is `None`. -/
def nodeString : Node → Option String
  | .text s => some s
  | .elem _ _ _ _ [c] => nodeString c
  | .elem _ _ _ _ _ => none

/-- Truthiness of a bs4 page element: a `Tag` defines `__len__` as its number of
children (so empty tags are falsy) and a `NavigableString` is truthy when nonempty. -/
def truthy : Node → Bool
  | .text s => s ≠ ""
  | .elem _ _ _ _ ch => !ch.isEmpty

/-- Python whitespace characters relevant to `str.strip()` on scraped text. -/
def isPySpace (c : Char) : Bool :=
  c == ' ' || c == '\t' || c == '\n' || c == '\r' || c == '\x0b' || c == '\x0c'

/-- Model of Python `str.strip()` on the character list of a string. -/
def stripChars (l : List Char) : List Char :=
  ((l.dropWhile isPySpace).reverse.dropWhile isPySpace).reverse

/-- The text content of a string node. -/
def textOf : Node → Option String
  | .text s => some s
  | .elem _ _ _ _ _ => none

/-- Model of `''.join(tag.stripped_strings)`: every string in the subtree in document
order, stripped, empty results dropped, concatenated. -/
def strippedStrings (n : Node) : String :=
  String.join ((((descendants n).filterMap textOf).map
    (fun s => String.mk (stripChars s.data))).filter (fun s => s ≠ ""))

/-- Python string comparison `a < b` (lexicographic on code points), the order used
by `max`/`min` with a string-valued key. -/
def pyStrLt : List Char → List Char → Bool
  | [], [] => false
  | [], _ :: _ => true
  | _ :: _, [] => false
  | a :: as, b :: bs => if a < b then true else if b < a then false else pyStrLt as bs

/-- Numeric value of a string of decimal digits (what `int(s)` would return),
used only to compare the textual `duration` field against its intended meaning. -/
def decValue (l : List Char) : Nat :=
  l.foldl (fun n c => n * 10 + (c.toNat - 48)) 0

/-- Model of the body of the audio-scan loop of `find_podcasts` for one `audio` tag:
`Podcast(unicode(src['data-title']), desc, pub_date, unicode(src.source['src']),
unicode(src.source['type']), unicode(src['data-duration']))`, where a missing
attribute raises `KeyError` and a missing `source` descendant makes `src.source`
be `None` so that the subscript raises `TypeError` (evaluation is left to right). -/
def audioEntry (desc : String) (pub_date : Option Int) (audio : Node) : Except String Podcast :=
  match attrOf audio ("data-title") with
  | none => .error ("KeyError: data-title")
  | some title =>
    match findFirstTag ("source") audio with
    | none => .error ("TypeError: NoneType object is not subscriptable (audio has no source)")
    | some srcTag =>
      match attrOf srcTag ("src") with
      | none => .error ("KeyError: src")
      | some src =>
        match attrOf srcTag ("type") with
        | none => .error ("KeyError: type")
        | some ty =>
          match attrOf audio ("data-duration") with
          | none => .error ("KeyError: data-duration")
          | some dur => .ok (Podcast.mk title desc pub_date src ty dur)

/-- The audio tags scanned by the nested loops of `find_podcasts`:
`for elem in soup.find_all(id="debate-podcasts"): for podcast in
elem.find_all(class_="panoply-podcast"): for src in podcast.find_all("audio")`. -/
def nestedAudios (doc : Node) : List Node :=
  (findAll (idIs ("debate-podcasts")) doc).flatMap (fun blk =>
    (findAll (classHas ("panoply-podcast")) blk).flatMap (fun pod =>
      findAll (tagIs ("audio")) pod))

/-- Full consumption of the generator part of `find_podcasts`: podcasts for each
scanned audio tag in order, or the first uncaught exception. -/
def scanAudios (desc : String) (pub_date : Option Int) : List Node → Except String (List Podcast)
  | [] => .ok []
  | a :: rest =>
    match audioEntry desc pub_date a with
    | .error e => .error e
    | .ok p =>
      match scanAudios desc pub_date rest with
      | .error e => .error e
      | .ok ps => .ok (p :: ps)

/-- Model of the published-time extraction of `find_podcasts`:
`soup.find("meta", property="article:published_time")`, whose `['content']`
subscript raises `KeyError` when absent, and whose `iso8601.parse_date` failure
(`ValueError`) is caught and degrades to `None`.  `parseDate` stands for
`iso8601.parse_date` with `none` for a raised `ParseError`. -/
def pagePubDate (parseDate : String → Option Int) (doc : Node) : Except String (Option Int) :=
  match findFirst (fun n => tagIs ("meta") n && (attrOf n ("property") == some ("article:published_time"))) doc with
  | none => .ok none
  | some m =>
    match attrOf m ("content") with
    | none => .error ("KeyError: content")
    | some s => .ok (parseDate s)

/-- Model of `find_podcasts` on an already fetched and parsed debate page: scrape the
description from the `div` with class `details` (`AttributeError` when absent, the
structural failure the spec calls fatal for the page), extract the optional page
publish date, then scan the nested audio tags. -/
def find_podcasts (parseDate : String → Option Int) (doc : Node) : Except String (List Podcast) :=
  match findFirst (fun n => tagIs ("div") n && classHas ("details") n) doc with
  | none => .error ("AttributeError: NoneType object has no attribute stripped_strings")
  | some detailsDiv =>
    match pagePubDate parseDate doc with
    | .error e => .error e
    | .ok pub_date => scanAudios (strippedStrings detailsDiv) pub_date (nestedAudios doc)

/-- The fixed path marker `debate_path = "/debates/"` of `find_debates`. -/
def debatePath : String := "/debates/"

/-- Model of the body of the `<url>` loop of `find_debates`: skip when `loc` is
missing or falsy; skip when the parsed path does not start with `/debates/`
(`parts.path[:len(debate_path)] != debate_path`); read `<lastmod>` when present and
truthy, parsing with `iso8601.parse_date` and falling back to epoch UTC (`0`) on
`ValueError` (in particular `lastmod.string is None` makes `parse_date` raise
`ParseError`); absent or empty `<lastmod>` also gives epoch.  `urlPath` stands for
`urlparse(...).path` and `unicode(None)` is the string `"None"`. -/
def debateOfUrlTag (urlPath : String → String) (parseDate : String → Option Int) (urltag : Node) : Option Debate :=
  match findFirstTag ("loc") urltag with
  | none => none
  | some loc =>
    if truthy loc then
      let url_item := (nodeString loc).getD ("None")
      if (urlPath url_item).data.take debatePath.data.length = debatePath.data then
        match findFirstTag ("lastmod") urltag with
        | some lm =>
          if truthy lm then
            match nodeString lm with
            | none => some (Debate.mk url_item 0)
            | some s => some (Debate.mk url_item ((parseDate s).getD 0))
          else some (Debate.mk url_item 0)
        | none => some (Debate.mk url_item 0)
      else none
    else none

/-- Model of `find_debates` on an already fetched and parsed sitemap document:
one candidate `Debate` per matching `<url>` tag, in document order. -/
def find_debates (urlPath : String → String) (parseDate : String → Option Int) (doc : Node) : List Debate :=
  (findAll (tagIs ("url")) doc).filterMap (debateOfUrlTag urlPath parseDate)

/-- Model of the module-level `all_debates` filter. -/
def all_debates (debates : List Debate) : List Debate :=
  debates

/-- Model of the module-level `all_podcasts` filter. -/
def all_podcasts (_debate : Debate) (podcasts : List Podcast) : List Podcast :=
  podcasts

/-- Model of `main`'s cutoff computation: `since = None`, and only under
`if args.since:` (Python truthiness, so `0` and `None` both fail the test)
`since = datetime.datetime.utcnow().replace(tzinfo=iso8601.UTC) - datetime.timedelta(args.since)`.
`now` is the current time in epoch seconds and a day is `86400` seconds. -/
def computeSince (now : Int) (argsSince : Option Int) : Option Int :=
  match argsSince with
  | none => none
  | some n => if n = 0 then none else some (now - n * 86400)

/-- Model of `main`'s debate filter: when a cutoff is in effect, drop debates with
`debate.last_modified < since`, otherwise `all_debates`. -/
def mkDebateFilter (since : Option Int) (debates : List Debate) : List Debate :=
  match since with
  | none => all_debates debates
  | some s => debates.filter (fun debate => !decide (debate.last_modified < s))

/-- The per-podcast age test shared by `main`'s podcast filters:
`if since and podcast.pubDate and podcast.pubDate < since: continue`
(a podcast is kept unless a cutoff is in effect, its publish date is known,
and that date is strictly older than the cutoff). -/
def keepPodcast (since : Option Int) (p : Podcast) : Bool :=
  match since, p.pubDate with
  | some s, some d => !decide (d < s)
  | _, _ => true

/-- Model of CPython `max(xs, key=lambda p: p.duration)` starting from seed `cur`:
scan left to right, replacing the current maximum only when the new key is strictly
greater, so the first maximum wins; keys are the textual `duration` fields compared
as Python strings. -/
def pyMaxByDuration (cur : Podcast) : List Podcast → Podcast
  | [] => cur
  | p :: ps => pyMaxByDuration (if pyStrLt cur.duration.data p.duration.data then p else cur) ps

/-- Model of CPython `min(xs, key=lambda p: p.duration)` starting from seed `cur`. -/
def pyMinByDuration (cur : Podcast) : List Podcast → Podcast
  | [] => cur
  | p :: ps => pyMinByDuration (if pyStrLt p.duration.data cur.duration.data then p else cur) ps

/-- Model of `main`'s `--audio unedited` podcast filter: keep the podcasts passing
the age test, then yield `max(podcast_list, key=lambda podcast: podcast.duration)`
when the list is nonempty, nothing otherwise. -/
def podcastFilterUnedited (since : Option Int) (_debate : Debate) (podcasts : List Podcast) : List Podcast :=
  match podcasts.filter (keepPodcast since) with
  | [] => []
  | p :: ps => [pyMaxByDuration p ps]

/-- Model of `main`'s `--audio edited` podcast filter: as `unedited` with `min`. -/
def podcastFilterEdited (since : Option Int) (_debate : Debate) (podcasts : List Podcast) : List Podcast :=
  match podcasts.filter (keepPodcast since) with
  | [] => []
  | p :: ps => [pyMinByDuration p ps]

/-- Model of `main`'s `--audio all` podcast filter: with a truthy `args.since` it
drops podcasts whose known publish date is older than the cutoff, otherwise it is
`all_podcasts`. -/
def podcastFilterAll (since : Option Int) (debate : Debate) (podcasts : List Podcast) : List Podcast :=
  match since with
  | some _ => podcasts.filter (keepPodcast since)
  | none => all_podcasts debate podcasts

/-- Distinguishes the two kinds of exception that can escape the run:
`requests.exceptions.RequestException` (transport) and the uncaught structural
scraping errors (`KeyError` / `TypeError` / `AttributeError`). -/
inductive RunError where
  | transport : String → RunError
  | structural : String → RunError
deriving DecidableEq

/-- Model of the per-debate loop of `find_debate_podcasts`: for each debate, fetch
and scrape its page inside `try: ... except requests.exceptions.RequestException:`,
so a transport failure (`fetchPage` error) only skips that debate, while a
structural scraping error is uncaught and aborts the whole iteration. -/
def orchestrate (fetchPage : String → Except String Node) (parseDate : String → Option Int)
    (podcast_filter : Debate → List Podcast → List Podcast) :
    List Debate → Except RunError (List (Debate × Podcast))
  | [] => .ok []
  | debate :: rest =>
    match fetchPage debate.url with
    | .error _ => orchestrate fetchPage parseDate podcast_filter rest
    | .ok page =>
      match find_podcasts parseDate page with
      | .error e => .error (.structural e)
      | .ok ps =>
        match orchestrate fetchPage parseDate podcast_filter rest with
        | .error e => .error e
        | .ok tail => .ok (((podcast_filter debate ps).map (fun p => (debate, p))) ++ tail)

/-- Model of `find_debate_podcasts`: fetching/parsing the sitemap itself
(`find_debates`'s own request) happens outside any handler, so its transport
failure propagates and aborts the run; otherwise the surviving debates are
processed by the guarded per-debate loop. -/
def find_debate_podcasts (sitemapDoc : Except String Node)
    (fetchPage : String → Except String Node)
    (urlPath : String → String) (parseDate : String → Option Int)
    (debate_filter : List Debate → List Debate)
    (podcast_filter : Debate → List Podcast → List Podcast) :
    Except RunError (List (Debate × Podcast)) :=
  match sitemapDoc with
  | .error e => .error (.transport e)
  | .ok doc =>
    orchestrate fetchPage parseDate podcast_filter (debate_filter (find_debates urlPath parseDate doc))

/-- The sort key of `main`: `ent[1].pubDate if ent[1].pubDate else ent[0].last_modified`
(an aware `datetime` is always truthy, `None` is falsy). -/
def effectiveTs (ent : Debate × Podcast) : Int :=
  match ent.2.pubDate with
  | some d => d
  | none => ent.1.last_modified

/-- Model of `main`'s sorting step: `sorted(podcast_tuples, key=..., reverse=True)`
when `args.sort` holds (CPython's sort is stable and `reverse=True` preserves the
original order of equal keys, which is exactly a stable merge sort by `≥` on keys),
and the sequence unchanged otherwise. -/
def sortPairs (sort : Bool) (pairs : List (Debate × Podcast)) : List (Debate × Podcast) :=
  if sort then pairs.mergeSort (fun a b => decide (effectiveTs b ≤ effectiveTs a)) else pairs

/-- Replace every occurrence of the character `c` by the string `r`
(Python `s.replace(c, r)` for a single-character pattern). -/
def replaceChar (c : Char) (r : List Char) : List Char → List Char
  | [] => []
  | x :: xs => (if x == c then r else [x]) ++ replaceChar c r xs

/-- The double-quote character, written via its code point. -/
def quoteChar : Char := Char.ofNat 34

/-- The apostrophe character, written via its code point. -/
def aposChar : Char := Char.ofNat 39

/-- Model of `cgi.escape(s, quote=True)`: replace `&` first, then `<`, then `>`,
then the double quote, each by its entity. -/
def cgi_escape (l : List Char) : List Char :=
  replaceChar quoteChar ("&quot;").data
    (replaceChar '>' ("&gt;").data
      (replaceChar '<' ("&lt;").data
        (replaceChar '&' ("&amp;").data l)))

/-- String-level `cgi.escape(s, quote=True)`. -/
def escapeStr (s : String) : String :=
  String.mk (cgi_escape s.data)

/-- Entity decoding performed by an XML parser reading the emitted document: the
five predefined XML entities decode to their characters; any other text is taken
literally. -/
def xml_unescape : List Char → List Char
  | [] => []
  | x :: r =>
    if x = '&' ∧ r.take 4 = ("amp;").data then '&' :: xml_unescape (r.drop 4)
    else if x = '&' ∧ r.take 3 = ("lt;").data then '<' :: xml_unescape (r.drop 3)
    else if x = '&' ∧ r.take 3 = ("gt;").data then '>' :: xml_unescape (r.drop 3)
    else if x = '&' ∧ r.take 5 = ("quot;").data then quoteChar :: xml_unescape (r.drop 5)
    else if x = '&' ∧ r.take 5 = ("apos;").data then aposChar :: xml_unescape (r.drop 5)
    else x :: xml_unescape r
termination_by l => l.length
decreasing_by
  all_goals simp [List.length_drop]
  all_goals omega

/-- Model of `write_rss`'s home-page derivation: if the sitemap url ends with
`/sitemap.xml`, drop the trailing `sitemap.xml` (keeping the slash), else use the
url unmodified. -/
def rss_base_url (url : String) : String :=
  if url.data.drop (url.data.length - ("/sitemap.xml").data.length) = ("/sitemap.xml").data then
    String.mk (url.data.take (url.data.length - ("sitemap.xml").data.length))
  else url

/-- The `<item>` block written by `write_rss` for one `(debate, podcast)` pair.
`fmtDate` stands for `.astimezone(iso8601.UTC).strftime(rfc822_format)` and
`content_length` for the already-resolved enclosure length text (the
`_get_content_length` result, `0` on failure, both rendered by `format`). -/
def rss_item_lines (fmtDate : Int → String) (content_length : String → String)
    (ent : Debate × Podcast) : List String :=
  let debate := ent.1
  let podcast := ent.2
  let pubdate : Int :=
    match podcast.pubDate with
    | some d => d
    | none => debate.last_modified
  ["  <item>\n",
   "    <title>" ++ escapeStr podcast.title ++ "</title>\n",
   "    <link>" ++ escapeStr debate.url ++ "</link>\n",
   "    <description>" ++ escapeStr podcast.desc ++ "</description>\n",
   "    <pubDate>" ++ fmtDate pubdate ++ "</pubDate>\n",
   "    <enclosure url=\"" ++ podcast.url ++ "\" length=\"" ++ content_length podcast.url ++ "\" type=\"" ++ podcast.type ++ "\" />\n",
   "    <itunes:duration>" ++ podcast.duration ++ "</itunes:duration>\n",
   "  </item>\n"]

/-- The fixed channel description written by `write_rss` (verbatim from the source,
including its mojibake dash). -/
def rss_channel_desc : String :=
  "  <description>Intelligence Squared U.S. Debates bring Oxford-style debate to America â€“ one motion, one moderator, two panelists for the motion and two against. From clean energy and the financial crisis, to the Middle East and the death of mainstream media, Intelligence Squared U.S. brings together the world" ++ String.mk [aposChar] ++ "s leading authorities on the day" ++ String.mk [aposChar] ++ "s most important issues. Join the debate online and cast your vote for each topic at www.iq2us.org.</description>\n"

/-- Model of `write_rss`: the exact sequence of strings written to the output
handle, one list entry per `fh.write` call.  `rfc822_now` stands for
`datetime.datetime.utcnow().strftime("%a, %d %b %Y %H:%M:%S -0000")`. -/
def write_rss_lines (rfc822_now : String) (fmtDate : Int → String)
    (content_length : String → String) (url title : String)
    (podcast_tuples : List (Debate × Podcast)) : List String :=
  ["<?xml version=\"1.0\" encoding=\"UTF-8\" ?>\n",
   "<rss version=\"2.0\" xmlns:itunes=\"http://www.itunes.com/dtds/podcast-1.0.dtd\">\n",
   "<channel>\n",
   "  <title>" ++ escapeStr title ++ "</title>\n",
   rss_channel_desc,
   "  <link>" ++ rss_base_url url ++ "</link>\n",
   "  <language>en-us</language>\n",
   "  <image>\n",
   "    <url>http://static.megaphone.fm/podcasts/bcc042ec-fb48-11e5-b604-930d2eb6cae2/image/uploads_2F1482274927463-5ma333ntgbmg85er-552d6f3f61ced4ca865638c3f33802a3_2FIQ2-Panoply3.jpg</url>\n",
   "    <title>" ++ escapeStr title ++ "</title>\n",
   "    <link>" ++ rss_base_url url ++ "</link>\n",
   "  </image>\n",
   "  <lastBuildDate>" ++ rfc822_now ++ "</lastBuildDate>\n",
   "  <pubDate>" ++ rfc822_now ++ "</pubDate>\n",
   "  <generator>https://github.com/drafnel/iq2us-rss</generator>\n",
   "  <docs>https://validator.w3.org/feed/docs/rss2.html</docs>\n",
   "  <ttl>60</ttl>\n"]
  ++ podcast_tuples.flatMap (rss_item_lines fmtDate content_length)
  ++ ["</channel>\n", "</rss>\n"]

/-- Per-character view of `cgi.escape(·, quote=True)`: the entity each character
becomes. -/
def escChar (c : Char) : List Char :=
  if c = '&' then ("&amp;").data
  else if c = '<' then ("&lt;").data
  else if c = '>' then ("&gt;").data
  else if c = quoteChar then ("&quot;").data
  else [c]

/-- An audio tag that `audioEntry` can process without raising: `data-title` and
`data-duration` attributes present and a `source` descendant with `src` and `type`. -/
def completeAudio (a : Node) : Bool :=
  (attrOf a ("data-title")).isSome &&
  (match findFirstTag ("source") a with
   | some s => (attrOf s ("src")).isSome && (attrOf s ("type")).isSome
   | none => false) &&
  (attrOf a ("data-duration")).isSome

/-- A `<url>` sitemap entry holding a `<loc>` and optionally a `<lastmod>`. -/
def urlEntryNode (u : String) (lm : Option String) : Node :=
  .elem ("url") none [] []
    ([Node.elem ("loc") none [] [] [Node.text u]] ++
     (match lm with
      | some s => [Node.elem ("lastmod") none [] [] [Node.text s]]
      | none => []))

/-- A parsed document with the given top-level elements (the BeautifulSoup object
itself, whose `find_all` searches all of them). -/
def docRoot (entries : List Node) : Node :=
  .elem ("document") none [] [] entries

/-- A debate page whose single audio tag sits inside the expected
`debate-podcasts` / `panoply-podcast` nesting but has no `source` child. -/
def pageNoSource : Node :=
  docRoot
    [.elem ("div") none ["details"] [] [.text ("Some debate.")],
     .elem ("div") (some ("debate-podcasts")) [] []
       [.elem ("div") none ["panoply-podcast"] []
         [.elem ("audio") none [] [("data-duration", "3042"), ("data-title", "A debate")] []]]]

/-- A debate page with one complete audio entry inside the expected nesting plus
several elements that do not match it (a stray paragraph, an audio tag outside the
nesting, a block without the `panoply-podcast` class). -/
def pageGood : Node :=
  docRoot
    [.elem ("div") none ["details"] [] [.text ("Some debate.")],
     .elem ("p") none [] [] [.text ("stray text")],
     .elem ("audio") none [] [("data-duration", "1"), ("data-title", "stray")] [],
     .elem ("div") (some ("debate-podcasts")) [] []
       [.elem ("div") none [] [] [.text ("not a podcast block")],
        .elem ("div") none ["panoply-podcast"] []
          [.elem ("div") none ["bottom"] []
            [.elem ("audio") none [] [("data-duration", "3042"), ("data-title", "Should We?")]
              [.elem ("source") none [] [("src", "https://traffic.example/a.mp3"), ("type", "audio/mpeg")] []]]]]]

/-- A podcast whose textual duration is `"9"` (nine seconds). -/
def shortNumPodcast : Podcast :=
  Podcast.mk ("Nine seconds") ("d") none ("https://a/9.mp3") ("audio/mpeg") ("9")

/-- A podcast whose textual duration is `"100"` (one hundred seconds). -/
def longNumPodcast : Podcast :=
  Podcast.mk ("Hundred seconds") ("d") none ("https://a/100.mp3") ("audio/mpeg") ("100")

/-- A podcast whose textual duration is `"21"`. -/
def dur21Podcast : Podcast :=
  Podcast.mk ("Twentyone seconds") ("d") none ("https://a/21.mp3") ("audio/mpeg") ("21")

/-- A podcast whose textual duration is `"3"`. -/
def dur3Podcast : Podcast :=
  Podcast.mk ("Three seconds") ("d") none ("https://a/3.mp3") ("audio/mpeg") ("3")

/-- A podcast published at epoch `-5`, far in the past. -/
def oldPodcast : Podcast :=
  Podcast.mk ("Old") ("d") (some (-5)) ("https://a/old.mp3") ("audio/mpeg") ("100")

/-- A podcast published at epoch `-100000`. -/
def veryOldPodcast : Podcast :=
  Podcast.mk ("Very old") ("d") (some (-100000)) ("https://a/vold.mp3") ("audio/mpeg") ("100")

/-- A sample debate. -/
def sampleDebate : Debate :=
  Debate.mk ("https://www.example.org/debates/x") 5

/-- A debate whose page URL contains an ampersand. -/
def ampDebate : Debate :=
  Debate.mk ("http://x.org/debates/d?a=1&b=2") 7

/-- A podcast whose title contains `&`, `<` and double quotes. -/
def titledPodcast : Podcast :=
  Podcast.mk ("Tom & Jerry <at> the " ++ String.mk [quoteChar] ++ "Movies" ++ String.mk [quoteChar])
    ("d") none ("https://a/t.mp3") ("audio/mpeg") ("60")

theorem replaceChar_append (c : Char) (r xs ys : List Char) :
    replaceChar c r (xs ++ ys) = replaceChar c r xs ++ replaceChar c r ys := by
  induction xs with
  | nil => rfl
  | cons x xs ih => simp [replaceChar, ih]

theorem cgi_escape_cons (x : Char) (xs : List Char) :
    cgi_escape (x :: xs) = escChar x ++ cgi_escape xs := by
  have hx : cgi_escape (x :: xs)
      = replaceChar quoteChar ("&quot;").data
          (replaceChar '>' ("&gt;").data
            (replaceChar '<' ("&lt;").data
              ((if x == '&' then ("&amp;").data else [x]) ++ replaceChar '&' ("&amp;").data xs))) := rfl
  rw [hx, replaceChar_append, replaceChar_append, replaceChar_append]
  congr 1
  by_cases h1 : x = '&'
  · subst h1; decide
  by_cases h2 : x = '<'
  · subst h2; decide
  by_cases h3 : x = '>'
  · subst h3; decide
  by_cases h4 : x = quoteChar
  · subst h4; decide
  simp [replaceChar, escChar, h1, h2, h3, h4]

theorem xml_unescape_cons_ne (x : Char) (r : List Char) (hx : x ≠ '&') :
    xml_unescape (x :: r) = x :: xml_unescape r := by
  rw [xml_unescape]
  simp [hx]

theorem xml_unescape_escChar (x : Char) (r : List Char) :
    xml_unescape (escChar x ++ r) = x :: xml_unescape r := by
  by_cases h1 : x = '&'
  · subst h1
    have h : escChar '&' ++ r = '&' :: 'a' :: 'm' :: 'p' :: ';' :: r := rfl
    rw [h, xml_unescape]
    simp
  by_cases h2 : x = '<'
  · subst h2
    have h : escChar '<' ++ r = '&' :: 'l' :: 't' :: ';' :: r := rfl
    rw [h, xml_unescape]
    simp
  by_cases h3 : x = '>'
  · subst h3
    have h : escChar '>' ++ r = '&' :: 'g' :: 't' :: ';' :: r := rfl
    rw [h, xml_unescape]
    simp
  by_cases h4 : x = quoteChar
  · subst h4
    have h : escChar quoteChar ++ r = '&' :: 'q' :: 'u' :: 'o' :: 't' :: ';' :: r := rfl
    rw [h, xml_unescape]
    simp
  have h : escChar x ++ r = x :: r := by simp [escChar, h1, h2, h3, h4]
  rw [h, xml_unescape_cons_ne x r h1]

theorem xml_unescape_cgi_escape (l : List Char) : xml_unescape (cgi_escape l) = l := by
  induction l with
  | nil =>
    rw [show cgi_escape ([] : List Char) = [] from rfl]
    rw [xml_unescape]
  | cons x xs ih => rw [cgi_escape_cons, xml_unescape_escChar, ih]

/-- C7: for every feed title containing `&`, `<`, or the double quote, the renderer
emits the item title as `cgi.escape(title, quote=True)` inside the `<title>` element,
and XML entity decoding of that escaped text recovers the original title exactly
(escape followed by XML-unescape is the identity). -/
theorem rss_title_escape_roundtrip (fmtDate : Int → String) (content_length : String → String)
    (ent : Debate × Podcast)
    (h : '&' ∈ ent.2.title.data ∨ '<' ∈ ent.2.title.data ∨ quoteChar ∈ ent.2.title.data) :
    ("    <title>" ++ escapeStr ent.2.title ++ "</title>\n") ∈ rss_item_lines fmtDate content_length ent
    ∧ String.mk (xml_unescape ((escapeStr ent.2.title).data)) = ent.2.title := by
  constructor
  · simp [rss_item_lines]
  · have hdata : (escapeStr ent.2.title).data = cgi_escape ent.2.title.data := rfl
    rw [hdata, xml_unescape_cgi_escape]

/-- Witness for C7 at a concrete title containing `&`, `<` and double quotes. -/
theorem rss_title_escape_roundtrip_witness :
    (("    <title>" ++ escapeStr titledPodcast.title ++ "</title>\n")
        ∈ rss_item_lines (fun _ => "") (fun _ => "0") (sampleDebate, titledPodcast))
    ∧ String.mk (xml_unescape ((escapeStr titledPodcast.title).data)) = titledPodcast.title :=
  rss_title_escape_roundtrip (fun _ => "") (fun _ => "0") (sampleDebate, titledPodcast)
    (Or.inl (by decide))

/-- C4: with sorting enabled the final pair sequence is non-increasing in the
effective timestamp (the podcast's `pubDate` when present, else the debate's
`last_modified`) and is a permutation of the orchestrator's output; with sorting
disabled the sequence is exactly the orchestrator's output in its original order. -/
theorem sortPairs_ordered (pairs : List (Debate × Podcast)) :
    ((sortPairs true pairs).Pairwise (fun a b => effectiveTs b ≤ effectiveTs a))
    ∧ (sortPairs true pairs).Perm pairs
    ∧ sortPairs false pairs = pairs := by
  refine ⟨?_, ?_, rfl⟩
  · have htrans : ∀ a b c : Debate × Podcast,
        (fun a b => decide (effectiveTs b ≤ effectiveTs a)) a b = true →
        (fun a b => decide (effectiveTs b ≤ effectiveTs a)) b c = true →
        (fun a b => decide (effectiveTs b ≤ effectiveTs a)) a c = true := by
      intro a b c hab hbc
      simp only [decide_eq_true_eq] at *
      omega
    have htotal : ∀ a b : Debate × Podcast,
        ((fun a b => decide (effectiveTs b ≤ effectiveTs a)) a b
          || (fun a b => decide (effectiveTs b ≤ effectiveTs a)) b a) = true := by
      intro a b
      simp only [Bool.or_eq_true, decide_eq_true_eq]
      omega
    have h := List.sorted_mergeSort htrans htotal pairs
    have hsort : sortPairs true pairs
        = pairs.mergeSort (fun a b => decide (effectiveTs b ≤ effectiveTs a)) := rfl
    rw [hsort]
    exact h.imp (fun hab => by simpa using hab)
  · have hsort : sortPairs true pairs
        = pairs.mergeSort (fun a b => decide (effectiveTs b ≤ effectiveTs a)) := rfl
    rw [hsort]
    exact List.mergeSort_perm pairs _

/-- C9: a `--since 0` command line fails Python's `if args.since:` truthiness test,
so no cutoff is computed and both the debate age filter and every per-podcast age
filter behave exactly as when no cutoff is configured (nothing is excluded). -/
theorem since_zero_disables_age_filters (now : Int) (ds : List Debate) (p : Podcast)
    (debate : Debate) (ps : List Podcast) :
    computeSince now (some 0) = none
    ∧ mkDebateFilter (computeSince now (some 0)) ds = ds
    ∧ mkDebateFilter (computeSince now (some 0)) ds = mkDebateFilter (computeSince now none) ds
    ∧ keepPodcast (computeSince now (some 0)) p = true
    ∧ podcastFilterUnedited (computeSince now (some 0)) debate ps
        = podcastFilterUnedited (computeSince now none) debate ps
    ∧ podcastFilterEdited (computeSince now (some 0)) debate ps
        = podcastFilterEdited (computeSince now none) debate ps
    ∧ podcastFilterAll (computeSince now (some 0)) debate ps
        = podcastFilterAll (computeSince now none) debate ps := by
  have h0 : computeSince now (some 0) = none := by
    simp [computeSince]
  refine ⟨h0, ?_, ?_, ?_, ?_, ?_, ?_⟩
  · rw [h0]
    rfl
  · rw [h0]
    rfl
  · rw [h0]
    cases hp : p.pubDate <;> simp [keepPodcast, hp]
  · rw [h0]
    rfl
  · rw [h0]
    rfl
  · rw [h0]
    rfl

/-- C1 (evaluation at the failing input): with no age cutoff, the `unedited` filter
applied to a debate with candidate podcasts of durations `"100"` and `"9"` yields
the `"9"` podcast, because `max(..., key=lambda p: p.duration)` compares the textual
durations as Python strings and `"9" > "100"` lexicographically — yet nine seconds
is strictly less than the one hundred seconds of the other candidate, contradicting
the claimed `duration_seconds ≥ every other candidate` property (and the code's own
docstring, which declares `duration` an `int`, and its comment, which assumes the
longest podcast is selected). -/
theorem unedited_picks_lexicographic_max :
    podcastFilterUnedited (computeSince 1000000 none) sampleDebate
        [longNumPodcast, shortNumPodcast] = [shortNumPodcast]
    ∧ pyStrLt longNumPodcast.duration.data shortNumPodcast.duration.data = true
    ∧ decValue shortNumPodcast.duration.data = 9
    ∧ decValue longNumPodcast.duration.data = 100
    ∧ decValue shortNumPodcast.duration.data < decValue longNumPodcast.duration.data := by
  refine ⟨rfl, rfl, rfl, rfl, ?_⟩
  decide

/-- C5 (counterexample): an age cutoff of `0` days is configured on the command
line, `oldPodcast` has a known publish date (epoch `-5`) strictly older than
`now - 0 days = now = 1000`, yet the per-podcast rule keeps it (Python's
`if args.since:` is false at `0`, so no filtering happens), contradicting the
claimed "excludes if and only if" at `N = 0`. -/
theorem since_zero_keeps_old_podcast :
    computeSince 1000 (some 0) = none
    ∧ oldPodcast.pubDate = some (-5)
    ∧ ((-5 : Int) < 1000 - 0 * 86400)
    ∧ keepPodcast (computeSince 1000 (some 0)) oldPodcast = true
    ∧ podcastFilterUnedited (computeSince 1000 (some 0)) sampleDebate [oldPodcast] = [oldPodcast]
    ∧ podcastFilterAll (computeSince 1000 (some 0)) sampleDebate [oldPodcast] = [oldPodcast] := by
  refine ⟨rfl, rfl, by norm_num, rfl, rfl, rfl⟩

/-- C5 (amended): when a nonzero age cutoff of `N` days is configured, the
per-podcast rule excludes a podcast if and only if it has a known publish date
strictly older than `now - N` days, and every podcast without a known publish date
passes regardless of age.  (The amendment restricts the claim to nonzero `N`:
a cutoff of exactly `0` days disables the rule, see the counterexample.) -/
theorem keepPodcast_cutoff (now N : Int) (p : Podcast) (hN : N ≠ 0) :
    (keepPodcast (computeSince now (some N)) p = false ↔
       ∃ t, p.pubDate = some t ∧ t < now - N * 86400)
    ∧ (p.pubDate = none → keepPodcast (computeSince now (some N)) p = true) := by
  have hs : computeSince now (some N) = some (now - N * 86400) := by
    simp [computeSince, hN]
  rw [hs]
  cases hp : p.pubDate with
  | none =>
    constructor
    · simp [keepPodcast, hp]
    · intro _
      simp [keepPodcast, hp]
  | some t =>
    constructor
    · constructor
      · intro hk
        refine ⟨t, rfl, ?_⟩
        by_contra hlt
        simp [keepPodcast, hp, hlt] at hk
      · rintro ⟨u, hu, hlt⟩
        have hut : t = u := Option.some_injective _ hu
        subst hut
        simp [keepPodcast, hp, hlt]
    · intro hnone
      exact absurd hnone (by simp)

/-- Witness for C5 (amended) at `now = 100`, `N = 1`: a podcast published at epoch
`-100000` (older than the cutoff) is excluded, and one with no publish date passes. -/
theorem keepPodcast_cutoff_witness :
    keepPodcast (computeSince 100 (some 1)) veryOldPodcast = false
    ∧ keepPodcast (computeSince 100 (some 1)) shortNumPodcast = true := by
  constructor
  · exact (keepPodcast_cutoff 100 1 veryOldPodcast (by norm_num)).1.mpr
      ⟨-100000, rfl, by norm_num⟩
  · exact (keepPodcast_cutoff 100 1 shortNumPodcast (by norm_num)).2 rfl

theorem orchestrate_skip (fetchPage : String → Except String Node) (parseDate : String → Option Int)
    (podcast_filter : Debate → List Podcast → List Podcast) (d : Debate) (e : String)
    (hd : fetchPage d.url = .error e) (pre post : List Debate) :
    orchestrate fetchPage parseDate podcast_filter (pre ++ d :: post)
      = orchestrate fetchPage parseDate podcast_filter (pre ++ post) := by
  induction pre with
  | nil => simp [orchestrate, hd]
  | cons x xs ih => simp only [List.cons_append, orchestrate, List.append_eq, ih]

/-- C3: in `find_debate_podcasts`, a transport failure on the sitemap fetch itself
propagates and aborts the whole run (producing no pairs), while a transport failure
fetching one debate's page only removes that debate's contribution: the output over
the surviving debates with the failing one present equals the output with it absent,
so the remaining debates are still processed. -/
theorem find_debate_podcasts_transport_errors (fetchPage : String → Except String Node)
    (urlPath : String → String) (parseDate : String → Option Int)
    (debate_filter : List Debate → List Debate)
    (podcast_filter : Debate → List Podcast → List Podcast) :
    (∀ e, find_debate_podcasts (.error e) fetchPage urlPath parseDate debate_filter podcast_filter
        = .error (.transport e))
    ∧ (∀ (d : Debate) (e : String), fetchPage d.url = .error e →
        ∀ pre post : List Debate,
          orchestrate fetchPage parseDate podcast_filter (pre ++ d :: post)
            = orchestrate fetchPage parseDate podcast_filter (pre ++ post)) := by
  constructor
  · intro e
    rfl
  · intro d e hd pre post
    exact orchestrate_skip fetchPage parseDate podcast_filter d e hd pre post

/-- Witness for C3: a failing sitemap fetch aborts with a transport error, and a
debate whose page fetch fails contributes nothing. -/
theorem find_debate_podcasts_transport_errors_witness :
    find_debate_podcasts (.error ("connection refused"))
        (fun _ => .error ("down")) (fun s => s) (fun _ => none) all_debates all_podcasts
      = .error (.transport ("connection refused"))
    ∧ orchestrate (fun _ => .error ("down")) (fun _ => none) all_podcasts [sampleDebate]
      = orchestrate (fun _ => .error ("down")) (fun _ => none) all_podcasts [] := by
  have h := find_debate_podcasts_transport_errors (fun _ => .error ("down")) (fun s => s)
    (fun _ => none) all_debates all_podcasts
  refine ⟨h.1 ("connection refused"), ?_⟩
  have h2 := h.2 sampleDebate ("down") rfl [] []
  simpa using h2

theorem descList_append (xs ys : List Node) :
    descList (xs ++ ys) = descList xs ++ descList ys := by
  induction xs with
  | nil => rfl
  | cons x xs ih => simp [descList, ih]

theorem find_debates_docRoot_append (urlPath : String → String) (parseDate : String → Option Int)
    (xs ys : List Node) :
    find_debates urlPath parseDate (docRoot (xs ++ ys))
      = find_debates urlPath parseDate (docRoot xs) ++ find_debates urlPath parseDate (docRoot ys) := by
  have hd : ∀ l : List Node, descendants (docRoot l) = descList l := fun _ => rfl
  simp [find_debates, findAll, hd, descList_append, List.filter_append, List.filterMap_append]

theorem find_debates_single (urlPath : String → String) (parseDate : String → Option Int)
    (u : String) (lm : Option String)
    (hpath : (urlPath u).data.take debatePath.data.length = debatePath.data)
    (hparse : ∀ s, lm = some s → parseDate s = none) :
    find_debates urlPath parseDate (docRoot [urlEntryNode u lm]) = [Debate.mk u 0] := by
  have hpath2 : List.take debatePath.length (urlPath u).data = debatePath.data := hpath
  cases lm with
  | none =>
    simp [find_debates, findAll, docRoot, urlEntryNode, descendants, descList,
      debateOfUrlTag, findFirstTag, findFirst, tagIs, idIs, truthy, nodeString, hpath2,
      List.filterMap_cons, List.find?]
  | some s =>
    have hp := hparse s rfl
    simp [find_debates, findAll, docRoot, urlEntryNode, descendants, descList,
      debateOfUrlTag, findFirstTag, findFirst, tagIs, idIs, truthy, nodeString, hpath2, hp,
      List.filterMap_cons, List.find?]

/-- C6: a sitemap `<url>` entry under `/debates/` whose `<lastmod>` is absent or
fails ISO-8601 parsing produces a `Debate` whose `last_modified` is exactly epoch
UTC (`0` in the epoch-seconds model), and the surrounding entries are extracted
unchanged — the scrape continues instead of aborting. -/
theorem find_debates_lastmod_fallback (urlPath : String → String) (parseDate : String → Option Int)
    (pre post : List Node) (u lm : String)
    (hpath : (urlPath u).data.take debatePath.data.length = debatePath.data)
    (hparse : parseDate lm = none) :
    find_debates urlPath parseDate (docRoot (pre ++ urlEntryNode u (some lm) :: post))
      = find_debates urlPath parseDate (docRoot pre)
        ++ Debate.mk u 0 :: find_debates urlPath parseDate (docRoot post)
    ∧ find_debates urlPath parseDate (docRoot (pre ++ urlEntryNode u none :: post))
      = find_debates urlPath parseDate (docRoot pre)
        ++ Debate.mk u 0 :: find_debates urlPath parseDate (docRoot post) := by
  constructor
  · have h1 : pre ++ urlEntryNode u (some lm) :: post
        = (pre ++ [urlEntryNode u (some lm)]) ++ post := by simp
    rw [h1, find_debates_docRoot_append, find_debates_docRoot_append,
      find_debates_single urlPath parseDate u (some lm) hpath
        (fun s hs => by cases hs; exact hparse)]
    simp
  · have h1 : pre ++ urlEntryNode u none :: post
        = (pre ++ [urlEntryNode u none]) ++ post := by simp
    rw [h1, find_debates_docRoot_append, find_debates_docRoot_append,
      find_debates_single urlPath parseDate u none hpath (fun s hs => by cases hs)]
    simp

/-- Witness for C6 at a concrete entry whose `lastmod` text parses to nothing,
and one with no `lastmod` at all. -/
theorem find_debates_lastmod_fallback_witness :
    find_debates (fun s => s) (fun _ => none) (docRoot [urlEntryNode ("/debates/x") (some ("not-a-date"))])
      = [Debate.mk ("/debates/x") 0]
    ∧ find_debates (fun s => s) (fun _ => none) (docRoot [urlEntryNode ("/debates/x") none])
      = [Debate.mk ("/debates/x") 0] := by
  have h := find_debates_lastmod_fallback (fun s => s) (fun _ => none) [] [] ("/debates/x")
    ("not-a-date") (by decide) rfl
  have e0 : find_debates (fun s => s) (fun _ => none) (docRoot ([] : List Node)) = [] := rfl
  rw [e0] at h
  simpa using h

theorem audioEntry_complete (desc : String) (pub : Option Int) (a : Node)
    (h : completeAudio a = true) :
    ∃ p : Podcast, audioEntry desc pub a = .ok p
      ∧ attrOf a ("data-duration") = some p.duration := by
  unfold completeAudio at h
  cases ht : attrOf a ("data-title") with
  | none => simp [ht] at h
  | some title =>
    cases hs : findFirstTag ("source") a with
    | none => simp [ht, hs] at h
    | some srcTag =>
      cases hsrc : attrOf srcTag ("src") with
      | none => simp [ht, hs, hsrc] at h
      | some src =>
        cases hty : attrOf srcTag ("type") with
        | none => simp [ht, hs, hsrc, hty] at h
        | some ty =>
          cases hdur : attrOf a ("data-duration") with
          | none => simp [ht, hs, hsrc, hty, hdur] at h
          | some dur =>
            refine ⟨Podcast.mk title desc pub src ty dur, ?_, ?_⟩
            · simp only [audioEntry, ht, hs, hsrc, hty, hdur]
            · simp [hdur]

theorem audioEntry_ok_duration (desc : String) (pub : Option Int) (a : Node) (p : Podcast)
    (h : audioEntry desc pub a = .ok p) :
    attrOf a ("data-duration") = some p.duration := by
  unfold audioEntry at h
  repeat' split at h
  all_goals simp_all
  all_goals rw [← h]

theorem scanAudios_complete (desc : String) (pub : Option Int) (l : List Node)
    (h : ∀ a ∈ l, completeAudio a = true) :
    ∃ ps : List Podcast, scanAudios desc pub l = .ok ps ∧ ps.length = l.length := by
  induction l with
  | nil => exact ⟨[], rfl, rfl⟩
  | cons a rest ih =>
    obtain ⟨p, hp, _⟩ := audioEntry_complete desc pub a (h a (by simp))
    obtain ⟨ps, hps, hlen⟩ := ih (fun b hb => h b (by simp [hb]))
    refine ⟨p :: ps, ?_, by simp [hlen]⟩
    simp [scanAudios, hp, hps]

theorem scanAudios_duration (desc : String) (pub : Option Int) (l : List Node)
    (ps : List Podcast) (h : scanAudios desc pub l = .ok ps) :
    ∀ p ∈ ps, ∃ a ∈ l, attrOf a ("data-duration") = some p.duration := by
  induction l generalizing ps with
  | nil =>
    have hnil : ps = [] := by simpa [scanAudios] using h.symm
    subst hnil
    intro p hp
    exact absurd hp (by simp)
  | cons a rest ih =>
    cases ha : audioEntry desc pub a with
    | error e => simp [scanAudios, ha] at h
    | ok p0 =>
      cases hrest : scanAudios desc pub rest with
      | error e => simp [scanAudios, ha, hrest] at h
      | ok ps0 =>
        have hps : p0 :: ps0 = ps := by simpa [scanAudios, ha, hrest] using h
        subst hps
        intro p hp
        rcases List.mem_cons.mp hp with hp0 | hmem
        · subst hp0
          exact ⟨a, by simp, audioEntry_ok_duration desc pub a p ha⟩
        · obtain ⟨b, hb, hattr⟩ := ih ps0 hrest p hmem
          exact ⟨b, by simp [hb], hattr⟩

/-- C2 (counterexample): a debate page whose single audio tag sits inside the
`debate-podcasts` / `panoply-podcast` nesting but has no `source` sub-element —
so it does not match the exact nesting pattern — is not silently skipped: the
extractor raises an uncaught `TypeError` on it instead of emitting no Podcast. -/
theorem find_podcasts_raises_on_sourceless_audio :
    (∃ a, nestedAudios pageNoSource = [a] ∧ findFirstTag ("source") a = none
        ∧ attrOf a ("data-title") = some ("A debate"))
    ∧ find_podcasts (fun _ => none) pageNoSource
        = .error ("TypeError: NoneType object is not subscriptable (audio has no source)") := by
  refine ⟨⟨Node.elem ("audio") none []
    [("data-duration", "3042"), ("data-title", "A debate")] [], rfl, rfl, rfl⟩, rfl⟩

/-- C2 (amended): elements that fail the tag/id/class nesting of the scan are
silently skipped — whenever every audio tag inside the nesting is complete (has
`data-title` and `data-duration` and a `source` child carrying `src` and `type`),
the scan raises nothing and emits exactly one Podcast per nested audio tag, hence
none for any other element.  (The amendment carves out audio tags inside the
nesting lacking the `source` sub-element or a required attribute: on those the
extractor raises an uncaught error rather than skipping, see the counterexample.) -/
theorem find_podcasts_skips_nonmatching (desc : String) (pub : Option Int) (doc : Node)
    (h : ∀ a ∈ nestedAudios doc, completeAudio a = true) :
    ∃ ps : List Podcast, scanAudios desc pub (nestedAudios doc) = .ok ps
      ∧ ps.length = (nestedAudios doc).length :=
  scanAudios_complete desc pub (nestedAudios doc) h

/-- Witness for C2 (amended): on `pageGood` (one complete nested audio plus several
non-matching elements) the scan succeeds with exactly one podcast. -/
theorem find_podcasts_skips_nonmatching_witness :
    (nestedAudios pageGood).length = 1
    ∧ ∃ ps : List Podcast, scanAudios ("d") none (nestedAudios pageGood) = .ok ps
        ∧ ps.length = 1 := by
  refine ⟨rfl, ?_⟩
  obtain ⟨ps, hps, hlen⟩ := find_podcasts_skips_nonmatching ("d") none pageGood (by decide)
  refine ⟨ps, hps, ?_⟩
  rw [hlen]
  decide

/-- C8: every Podcast emitted by the page scan holds in `duration` the raw text of
its audio tag's `data-duration` attribute (a string, not a parsed integer), and the
downstream `unedited` selection consequently compares these strings in Python string
order: among durations `"21"` and `"3"` it selects `"3"`, although 3 < 21 as
numbers of seconds. -/
theorem podcast_duration_raw_text (desc : String) (pub : Option Int) (doc : Node)
    (ps : List Podcast) (h : scanAudios desc pub (nestedAudios doc) = .ok ps) :
    (∀ p ∈ ps, ∃ a ∈ nestedAudios doc, attrOf a ("data-duration") = some p.duration)
    ∧ podcastFilterUnedited none sampleDebate [dur21Podcast, dur3Podcast] = [dur3Podcast]
    ∧ decValue dur3Podcast.duration.data < decValue dur21Podcast.duration.data :=
  ⟨scanAudios_duration desc pub (nestedAudios doc) ps h, rfl, by decide⟩

/-- Witness for C8 on `pageGood`, whose scan emits one podcast with raw textual
duration `"3042"`. -/
theorem podcast_duration_raw_text_witness :
    (∀ p ∈ [Podcast.mk ("Should We?") ("d") none ("https://traffic.example/a.mp3")
        ("audio/mpeg") ("3042")],
      ∃ a ∈ nestedAudios pageGood, attrOf a ("data-duration") = some p.duration)
    ∧ podcastFilterUnedited none sampleDebate [dur21Podcast, dur3Podcast] = [dur3Podcast]
    ∧ decValue dur3Podcast.duration.data < decValue dur21Podcast.duration.data :=
  podcast_duration_raw_text ("d") none pageGood
    [Podcast.mk ("Should We?") ("d") none ("https://traffic.example/a.mp3")
      ("audio/mpeg") ("3042")] rfl

/-- C10: the renderer writes the derived home-page URL verbatim — with no XML
entity escaping — into both the channel-level `<link>` line and the `<image>`
`<link>` line, while each item's `<link>` carries the `cgi.escape`d debate URL. -/
theorem rss_channel_link_verbatim (rfc822_now : String) (fmtDate : Int → String)
    (content_length : String → String) (url title : String)
    (pairs : List (Debate × Podcast)) :
    ("  <link>" ++ rss_base_url url ++ "</link>\n")
        ∈ write_rss_lines rfc822_now fmtDate content_length url title pairs
    ∧ ("    <link>" ++ rss_base_url url ++ "</link>\n")
        ∈ write_rss_lines rfc822_now fmtDate content_length url title pairs
    ∧ ∀ ent ∈ pairs, ("    <link>" ++ escapeStr ent.1.url ++ "</link>\n")
        ∈ write_rss_lines rfc822_now fmtDate content_length url title pairs := by
  refine ⟨?_, ?_, ?_⟩
  · simp [write_rss_lines]
  · simp [write_rss_lines]
  · intro ent hent
    simp only [write_rss_lines, List.mem_append]
    refine Or.inl (Or.inr ?_)
    refine List.mem_flatMap.mpr ⟨ent, hent, ?_⟩
    simp [rss_item_lines]

/-- Witness for C10: with a sitemap URL and a debate URL both containing `&`, the
channel and image link lines carry the raw home-page URL while the item link line
carries the escaped debate URL. -/
theorem rss_channel_link_verbatim_witness :
    rss_base_url ("http://x.org/a&b/sitemap.xml") = "http://x.org/a&b/"
    ∧ escapeStr ampDebate.url = "http://x.org/debates/d?a=1&amp;b=2"
    ∧ ("  <link>" ++ rss_base_url ("http://x.org/a&b/sitemap.xml") ++ "</link>\n")
        ∈ write_rss_lines ("now") (fun _ => "") (fun _ => "0")
            ("http://x.org/a&b/sitemap.xml") ("t") [(ampDebate, titledPodcast)]
    ∧ ("    <link>" ++ rss_base_url ("http://x.org/a&b/sitemap.xml") ++ "</link>\n")
        ∈ write_rss_lines ("now") (fun _ => "") (fun _ => "0")
            ("http://x.org/a&b/sitemap.xml") ("t") [(ampDebate, titledPodcast)]
    ∧ ("    <link>" ++ escapeStr ampDebate.url ++ "</link>\n")
        ∈ write_rss_lines ("now") (fun _ => "") (fun _ => "0")
            ("http://x.org/a&b/sitemap.xml") ("t") [(ampDebate, titledPodcast)] := by
  have h := rss_channel_link_verbatim ("now") (fun _ => "") (fun _ => "0")
    ("http://x.org/a&b/sitemap.xml") ("t") [(ampDebate, titledPodcast)]
  refine ⟨rfl, rfl, h.1, h.2.1, ?_⟩
  exact h.2.2 (ampDebate, titledPodcast) (by simp)
